import Mathlib

/-!
Shallow embedding of the ComStar gateway normalization layer
(`vnpy_comstar/gateway/comstar_gateway.py`).

Wire floats are modelled as rationals; Python dicts keyed by price or by
level index are modelled as association lists with first-match lookup and
front insertion (so a later insertion shadows an earlier one, matching a
Python dict overwrite as far as lookup and membership can observe).
-/

/-- Contract multiplier constant (`SIZE = 10_000_000` in the source). -/
def SIZE : ℚ := 10000000

/-- Raw anonymous-market (XBond) depth payload: the fields read by
`parse_tick`.  The source converts each numeric field with `float(...)`;
here they are already rationals. -/
structure XbondDepthData where
  symbol : String
  settle_type : String
  name : String
  volume : ℚ
  last_price : ℚ
  open_price : ℚ
  high_price : ℚ
  low_price : ℚ
  pre_close : ℚ
  bid_price_1 : ℚ
  bid_price_2 : ℚ
  bid_price_3 : ℚ
  bid_price_4 : ℚ
  bid_price_5 : ℚ
  bid_price_6 : ℚ
  ask_price_1 : ℚ
  ask_price_2 : ℚ
  ask_price_3 : ℚ
  ask_price_4 : ℚ
  ask_price_5 : ℚ
  ask_price_6 : ℚ
  bid_volume_1 : ℚ
  bid_volume_2 : ℚ
  bid_volume_3 : ℚ
  bid_volume_4 : ℚ
  bid_volume_5 : ℚ
  bid_volume_6 : ℚ
  ask_volume_1 : ℚ
  ask_volume_2 : ℚ
  ask_volume_3 : ℚ
  ask_volume_4 : ℚ
  ask_volume_5 : ℚ
  ask_volume_6 : ℚ
  deriving DecidableEq

/-- Canonical tick entity (the fields of vnpy `TickData` that this layer
reads or writes).  The `public_*` fields are set only by the anonymous
market parser via attribute assignment; they are `Option` so that
`hasattr` can be modelled (`none` = attribute missing, which is the
dataclass default). -/
structure TickData where
  symbol : String
  name : String := ""
  volume : ℚ := 0
  last_price : ℚ := 0
  open_price : ℚ := 0
  high_price : ℚ := 0
  low_price : ℚ := 0
  pre_close : ℚ := 0
  bid_price_1 : ℚ := 0
  bid_price_2 : ℚ := 0
  bid_price_3 : ℚ := 0
  bid_price_4 : ℚ := 0
  bid_price_5 : ℚ := 0
  ask_price_1 : ℚ := 0
  ask_price_2 : ℚ := 0
  ask_price_3 : ℚ := 0
  ask_price_4 : ℚ := 0
  ask_price_5 : ℚ := 0
  bid_volume_1 : ℚ := 0
  bid_volume_2 : ℚ := 0
  bid_volume_3 : ℚ := 0
  bid_volume_4 : ℚ := 0
  bid_volume_5 : ℚ := 0
  ask_volume_1 : ℚ := 0
  ask_volume_2 : ℚ := 0
  ask_volume_3 : ℚ := 0
  ask_volume_4 : ℚ := 0
  ask_volume_5 : ℚ := 0
  public_bid_price : Option ℚ := none
  public_ask_price : Option ℚ := none
  public_bid_volume : Option ℚ := none
  public_ask_volume : Option ℚ := none
  deriving DecidableEq

/-- Function `parse_tick` (source lines 506-553): normalizes an anonymous-market
depth payload.  Canonical levels 1-5 are taken from raw levels 2-6 (the
level shift) and raw level 1 is retained in the `public_*` fields. -/
def parse_tick (data : XbondDepthData) : TickData :=
  { symbol := data.symbol ++ "_" ++ data.settle_type
    name := data.name
    volume := data.volume
    last_price := data.last_price
    open_price := data.open_price
    high_price := data.high_price
    low_price := data.low_price
    pre_close := data.pre_close
    bid_price_1 := data.bid_price_2
    bid_price_2 := data.bid_price_3
    bid_price_3 := data.bid_price_4
    bid_price_4 := data.bid_price_5
    bid_price_5 := data.bid_price_6
    ask_price_1 := data.ask_price_2
    ask_price_2 := data.ask_price_3
    ask_price_3 := data.ask_price_4
    ask_price_4 := data.ask_price_5
    ask_price_5 := data.ask_price_6
    bid_volume_1 := data.bid_volume_2
    bid_volume_2 := data.bid_volume_3
    bid_volume_3 := data.bid_volume_4
    bid_volume_4 := data.bid_volume_5
    bid_volume_5 := data.bid_volume_6
    ask_volume_1 := data.ask_volume_2
    ask_volume_2 := data.ask_volume_3
    ask_volume_3 := data.ask_volume_4
    ask_volume_4 := data.ask_volume_5
    ask_volume_5 := data.ask_volume_6
    public_bid_price := some data.bid_price_1
    public_ask_price := some data.ask_price_1
    public_bid_volume := some data.bid_volume_1
    public_ask_volume := some data.ask_volume_1 }

/-- C1: for every anonymous-market depth payload, the tick produced by
`parse_tick` has, for each level i in 1..5 and both sides, canonical price
and volume level i equal to the raw level i+1, and its public best
bid/ask price and volume fields equal the raw level-1 values. -/
theorem c1_parse_tick_level_shift (data : XbondDepthData) :
    ((parse_tick data).bid_price_1 = data.bid_price_2 ∧
     (parse_tick data).bid_price_2 = data.bid_price_3 ∧
     (parse_tick data).bid_price_3 = data.bid_price_4 ∧
     (parse_tick data).bid_price_4 = data.bid_price_5 ∧
     (parse_tick data).bid_price_5 = data.bid_price_6) ∧
    ((parse_tick data).ask_price_1 = data.ask_price_2 ∧
     (parse_tick data).ask_price_2 = data.ask_price_3 ∧
     (parse_tick data).ask_price_3 = data.ask_price_4 ∧
     (parse_tick data).ask_price_4 = data.ask_price_5 ∧
     (parse_tick data).ask_price_5 = data.ask_price_6) ∧
    ((parse_tick data).bid_volume_1 = data.bid_volume_2 ∧
     (parse_tick data).bid_volume_2 = data.bid_volume_3 ∧
     (parse_tick data).bid_volume_3 = data.bid_volume_4 ∧
     (parse_tick data).bid_volume_4 = data.bid_volume_5 ∧
     (parse_tick data).bid_volume_5 = data.bid_volume_6) ∧
    ((parse_tick data).ask_volume_1 = data.ask_volume_2 ∧
     (parse_tick data).ask_volume_2 = data.ask_volume_3 ∧
     (parse_tick data).ask_volume_3 = data.ask_volume_4 ∧
     (parse_tick data).ask_volume_4 = data.ask_volume_5 ∧
     (parse_tick data).ask_volume_5 = data.ask_volume_6) ∧
    ((parse_tick data).public_bid_price = some data.bid_price_1 ∧
     (parse_tick data).public_ask_price = some data.ask_price_1 ∧
     (parse_tick data).public_bid_volume = some data.bid_volume_1 ∧
     (parse_tick data).public_ask_volume = some data.ask_volume_1) := by
  refine ⟨⟨rfl, rfl, rfl, rfl, rfl⟩, ⟨rfl, rfl, rfl, rfl, rfl⟩,
    ⟨rfl, rfl, rfl, rfl, rfl⟩, ⟨rfl, rfl, rfl, rfl, rfl⟩,
    ⟨rfl, rfl, rfl, rfl⟩⟩

/-- User-facing log messages written via `write_log`, as structured values
(the source writes Chinese f-strings; the interpolated data is carried in
the constructor arguments). -/
inductive LogMsg where
  /-- Message "仅支持限价单和FAK单" -/
  | onlyLimitFak
  /-- Message "仅支持FAK单" -/
  | onlyFak
  /-- Message "请输入清算速度T0或T1" -/
  | settleHintMissing
  /-- Message "清算速度仅支持T0或T1" -/
  | settleTypeInvalid
  /-- Message "找不到...的双边报价信息", carrying the vt symbol. -/
  | quoteInfoNotFound (vt_symbol : String)
  /-- Message "找不到...指定价格...的报价信息", carrying the vt symbol and price. -/
  | priceInfoNotFound (vt_symbol : String) (price : ℚ)
  deriving DecidableEq

/-- Python `str.split(sep)` for a single-character separator, on the
character list of the string. -/
def pySplitChars (sep : Char) : List Char → List Char → List (List Char)
  | [], acc => [acc.reverse]
  | c :: rest, acc =>
    if c = sep then acc.reverse :: pySplitChars sep rest []
    else pySplitChars sep rest (c :: acc)

/-- Python `symbol.split("_")` as used in `split_symbol`. -/
def pySplit (s : String) (sep : Char) : List String :=
  (pySplitChars sep s.data []).map String.mk

/-- Outcome of `split_symbol`: a successful pair, `None` after a log
message, or an uncaught Python `ValueError` propagating to the caller. -/
inductive SplitResult where
  | ok (symbol settle_type : String)
  | invalid (log : LogMsg)
  | error
  deriving DecidableEq

/-- Method `ComstarGateway.split_symbol` (source lines 302-317).  Checks that the
separator occurs, then unpacks `symbol.split("_")` into exactly two names
(a `ValueError` escapes when the split has a different length), then
validates the settlement token. -/
def split_symbol (symbol : String) : SplitResult :=
  if '_' ∈ symbol.data then
    match pySplit symbol '_' with
    | [new_symbol, settle_type] =>
      if settle_type = "T0" ∨ settle_type = "T1" then
        SplitResult.ok new_symbol settle_type
      else
        SplitResult.invalid LogMsg.settleTypeInvalid
    | _ => SplitResult.error
  else
    SplitResult.invalid LogMsg.settleHintMissing

example : split_symbol "180406_T0" = SplitResult.ok "180406" "T0" := by decide
example : split_symbol "180406_T1" = SplitResult.ok "180406" "T1" := by decide
example : split_symbol "180406" = SplitResult.invalid LogMsg.settleHintMissing := by decide
example : split_symbol "180406_T2" = SplitResult.invalid LogMsg.settleTypeInvalid := by decide

/-- C6 (code bug): the invalid input `"180406_T0_T1"` (separator present,
but not a valid compound symbol) makes `split_symbol` raise a Python
`ValueError` out of the two-name tuple unpacking of a three-element split,
contradicting the claim that decoding failures never raise into the
caller. -/
theorem c6_split_symbol_raises_on_double_separator :
    split_symbol "180406_T0_T1" = SplitResult.error := by decide

/-- First-match lookup in an association list; models `dict.get(k)` /
`dict[k]` for lists built so that the most recent binding of a key is the
first occurrence. -/
def dlookup {κ α : Type} [DecidableEq κ] : List (κ × α) → κ → Option α
  | [], _ => none
  | (k, v) :: rest, i => if k = i then some v else dlookup rest i

theorem dlookup_append {κ α : Type} [DecidableEq κ]
    (l1 l2 : List (κ × α)) (k : κ) :
    dlookup (l1 ++ l2) k =
      (match dlookup l1 k with
       | some v => some v
       | none => dlookup l2 k) := by
  induction l1 with
  | nil => simp [dlookup]
  | cons kv rest ih =>
    obtain ⟨k1, v1⟩ := kv
    by_cases h : k1 = k <;> simp [dlookup, h, ih]

/-- Metadata cached for one quoted price level (the dict values of
`QuoteInfo.bid_info` / `ask_info`). -/
structure QuoteMeta where
  time : String
  quoteid : String
  partyid : String
  deriving DecidableEq

/-- One flattened per-level quote entry: the bundle of fields
`<side>_price_i`, `<side>_volume_i`, `<side>_time_i`, `<side>_quoteid_i`,
`<side>_partyid_i` that `convert_quote_tick` always writes together. -/
structure FlatEntry where
  price : ℚ
  volume : ℚ
  time : String
  quoteid : String
  partyid : String
  deriving DecidableEq

/-- The metadata stored for a flattened entry by `update_info`. -/
def FlatEntry.toMeta (e : FlatEntry) : QuoteMeta :=
  { time := e.time, quoteid := e.quoteid, partyid := e.partyid }

/-- A side of a flattened quote-tick update: level index → entry. -/
def LevelDict : Type := List (Nat × FlatEntry)

/-- The two flattened sides of a quote-tick update consumed by
`QuoteInfo.update_info`. -/
structure QuoteUpdateData where
  bids : LevelDict
  asks : LevelDict

/-- The bid/ask price ladders cached per instrument (`QuoteInfo`). -/
structure QuoteInfo where
  vt_symbol : String
  bid_info : List (ℚ × QuoteMeta)
  ask_info : List (ℚ × QuoteMeta)
  deriving DecidableEq

/-- The level indices scanned by `update_info` (`range(1, 6)`). -/
def levelIndices : List Nat := [1, 2, 3, 4, 5]

/-- One side of `QuoteInfo.update_info` (source lines 749-775): scan the
levels in order, stop at the first whose price is absent or falsy
(`if not price: break`), store `price -> metadata` in a fresh dict.  The
recursion appends the current level behind the deeper levels so that
first-match `dlookup` sees the deepest binding of a duplicated price
first, matching Python dict overwrite. -/
def rebuildSide (d : LevelDict) : List Nat → List (ℚ × QuoteMeta)
  | [] => []
  | i :: rest =>
    match dlookup d i with
    | none => []
    | some e =>
      if e.price = 0 then []
      else rebuildSide d rest ++ [(e.price, e.toMeta)]

/-- Method `QuoteInfo.update_info`: clears both ladders and rebuilds them from
levels 1..5 of the update (the previous ladders are discarded). -/
def QuoteInfo.update_info (q : QuoteInfo) (data : QuoteUpdateData) : QuoteInfo :=
  { q with
    bid_info := rebuildSide data.bids levelIndices
    ask_info := rebuildSide data.asks levelIndices }

/-- The entries actually consumed by the `update_info` scan: the maximal
prefix of the level list whose entries are present with nonzero price. -/
def densePrefix (d : LevelDict) : List Nat → List FlatEntry
  | [] => []
  | i :: rest =>
    match dlookup d i with
    | none => []
    | some e => if e.price = 0 then [] else e :: densePrefix d rest

/-- The ladder built from a list of entries taken in scan order. -/
def ladderOf : List FlatEntry → List (ℚ × QuoteMeta)
  | [] => []
  | e :: rest => ladderOf rest ++ [(e.price, e.toMeta)]

theorem rebuildSide_eq_ladderOf (d : LevelDict) (L : List Nat) :
    rebuildSide d L = ladderOf (densePrefix d L) := by
  induction L with
  | nil => rfl
  | cons i rest ih =>
    simp only [rebuildSide, densePrefix]
    cases dlookup d i with
    | none => rfl
    | some e =>
      by_cases h : e.price = 0 <;> simp [h, ih, ladderOf]

theorem ladderOf_lookup_none (es : List FlatEntry) (p : ℚ)
    (h : ∀ e ∈ es, e.price ≠ p) :
    dlookup (ladderOf es) p = none := by
  induction es with
  | nil => rfl
  | cons e rest ih =>
    have hne : e.price ≠ p := h e (List.mem_cons_self e rest)
    have ihr := ih (fun x hx => h x (List.mem_cons_of_mem e hx))
    simp [ladderOf, dlookup_append, ihr, dlookup, hne]

theorem ladderOf_lookup_found (es : List FlatEntry) (e : FlatEntry)
    (hnd : (es.map FlatEntry.price).Nodup) (he : e ∈ es) :
    dlookup (ladderOf es) e.price = some e.toMeta := by
  induction es with
  | nil => cases he
  | cons f rest ih =>
    have hnd' : (rest.map FlatEntry.price).Nodup := (List.nodup_cons.mp hnd).2
    rcases List.mem_cons.mp he with rfl | hmem
    · have hnot : ∀ x ∈ rest, x.price ≠ e.price := by
        intro x hx hxe
        exact (List.nodup_cons.mp hnd).1 (hxe ▸ List.mem_map_of_mem FlatEntry.price hx)
      simp [ladderOf, dlookup_append, ladderOf_lookup_none rest e.price hnot, dlookup]
    · have := ih hnd' hmem
      simp [ladderOf, dlookup_append, this]

theorem rebuildSide_lookup_source (d : LevelDict) (L : List Nat) (p : ℚ)
    (m : QuoteMeta) (h : dlookup (rebuildSide d L) p = some m) :
    ∃ i ∈ L, ∃ e, dlookup d i = some e ∧ e.price ≠ 0 ∧ e.price = p ∧
      e.toMeta = m := by
  induction L with
  | nil => simp [rebuildSide, dlookup] at h
  | cons i rest ih =>
    simp only [rebuildSide] at h
    cases hd : dlookup d i with
    | none => rw [hd] at h; simp [dlookup] at h
    | some e =>
      rw [hd] at h
      dsimp only at h
      by_cases hz : e.price = 0
      · rw [if_pos hz] at h; simp [dlookup] at h
      · rw [if_neg hz, dlookup_append] at h
        cases hr : dlookup (rebuildSide d rest) p with
        | some m2 =>
          rw [hr] at h
          dsimp only at h
          obtain ⟨j, hj, e2, he2⟩ := ih (hr.trans h)
          exact ⟨j, List.mem_cons_of_mem i hj, e2, he2⟩
        | none =>
          rw [hr] at h
          dsimp only at h
          simp only [dlookup] at h
          by_cases hp : e.price = p
          · rw [if_pos hp] at h
            exact ⟨i, List.mem_cons_self i rest, e, hd, hz, hp, Option.some_injective _ h⟩
          · rw [if_neg hp] at h; cases h

/-- A flattened side whose entries occupy consecutive level slots 1..k. -/
def natZip (es : List FlatEntry) : LevelDict :=
  (List.range' 1 es.length).zip es

theorem densePrefix_natZip (es : List FlatEntry) (hlen : es.length ≤ 5)
    (hnz : ∀ e ∈ es, e.price ≠ 0) :
    densePrefix (natZip es) levelIndices = es := by
  rcases es with _ | ⟨a, _ | ⟨b, _ | ⟨c, _ | ⟨d, _ | ⟨e, _ | ⟨f, tl⟩⟩⟩⟩⟩⟩
  · simp [densePrefix, natZip, dlookup, levelIndices]
  · have h1 := hnz a (by simp)
    have hz : natZip [a] = [(1, a)] := rfl
    simp [densePrefix, dlookup, levelIndices, hz, h1]
  · have h1 := hnz a (by simp)
    have h2 := hnz b (by simp)
    have hz : natZip [a, b] = [(1, a), (2, b)] := rfl
    simp [densePrefix, dlookup, levelIndices, hz, h1, h2]
  · have h1 := hnz a (by simp)
    have h2 := hnz b (by simp)
    have h3 := hnz c (by simp)
    have hz : natZip [a, b, c] = [(1, a), (2, b), (3, c)] := rfl
    simp [densePrefix, dlookup, levelIndices, hz, h1, h2, h3]
  · have h1 := hnz a (by simp)
    have h2 := hnz b (by simp)
    have h3 := hnz c (by simp)
    have h4 := hnz d (by simp)
    have hz : natZip [a, b, c, d] = [(1, a), (2, b), (3, c), (4, d)] := rfl
    simp [densePrefix, dlookup, levelIndices, hz, h1, h2, h3, h4]
  · have h1 := hnz a (by simp)
    have h2 := hnz b (by simp)
    have h3 := hnz c (by simp)
    have h4 := hnz d (by simp)
    have h5 := hnz e (by simp)
    have hz : natZip [a, b, c, d, e] = [(1, a), (2, b), (3, c), (4, d), (5, e)] := rfl
    simp [densePrefix, dlookup, levelIndices, hz, h1, h2, h3, h4, h5]
  · simp only [List.length_cons] at hlen
    omega

/-- Bid entry A of the quote-book example (integer price 100). -/
def c2entryA : FlatEntry :=
  { price := 100, volume := 10000000, time := "10:00:00"
    quoteid := "QA", partyid := "PA" }

/-- Bid entry B of the quote-book example (integer price 99). -/
def c2entryB : FlatEntry :=
  { price := 99, volume := 20000000, time := "10:00:01"
    quoteid := "QB", partyid := "PB" }

/-- An update whose only bid level sits in slot 2 (slot 1 is absent). -/
def c2gapUpdate : QuoteUpdateData :=
  { bids := [(2, c2entryA)], asks := [] }

/-- An empty quote-info cache for instrument "X". -/
def c2emptyInfo : QuoteInfo := { vt_symbol := "X", bid_info := [], ask_info := [] }

/-- C2 (counterexample): an update carrying bid entry A in level slot 2
with slot 1 absent.  A's price is among the update's bid levels, yet
after `update_info` the lookup of that price is absent, because the rebuild
scan stops at the first missing level.  This refutes the claim that lookup
of any price in the update's levels returns that level's metadata. -/
theorem c2_counterexample_gap_level_dropped :
    dlookup c2gapUpdate.bids 2 = some c2entryA ∧
    dlookup (QuoteInfo.update_info c2emptyInfo c2gapUpdate).bid_info
      c2entryA.price = none := by decide

/-- C2 (amended): for an update whose per-side levels occupy consecutive
slots 1..k (k ≤ 5) with nonzero, pairwise-distinct prices: lookup of a
price in the update's levels returns that level's metadata; lookup of a
price not in the update is absent; and the rebuilt ladders do not depend
on the previous cache state, so any price cached before the update but
absent from it is no longer found. -/
theorem c2_update_rebuilds_ladders (q : QuoteInfo) (u : QuoteUpdateData)
    (es fs : List FlatEntry)
    (hbids : u.bids = natZip es) (hasks : u.asks = natZip fs)
    (hblen : es.length ≤ 5) (halen : fs.length ≤ 5)
    (hbnz : ∀ e ∈ es, e.price ≠ 0) (hanz : ∀ e ∈ fs, e.price ≠ 0)
    (hbnd : (es.map FlatEntry.price).Nodup)
    (hand : (fs.map FlatEntry.price).Nodup) :
    (∀ e ∈ es, dlookup (q.update_info u).bid_info e.price = some e.toMeta) ∧
    (∀ e ∈ fs, dlookup (q.update_info u).ask_info e.price = some e.toMeta) ∧
    (∀ p : ℚ, (∀ e ∈ es, e.price ≠ p) →
       dlookup (q.update_info u).bid_info p = none) ∧
    (∀ p : ℚ, (∀ e ∈ fs, e.price ≠ p) →
       dlookup (q.update_info u).ask_info p = none) ∧
    (∀ q2 : QuoteInfo,
       (q.update_info u).bid_info = (q2.update_info u).bid_info ∧
       (q.update_info u).ask_info = (q2.update_info u).ask_info) := by
  have hb : (q.update_info u).bid_info = ladderOf es := by
    simp [QuoteInfo.update_info, hbids, rebuildSide_eq_ladderOf,
      densePrefix_natZip es hblen hbnz]
  have ha : (q.update_info u).ask_info = ladderOf fs := by
    simp [QuoteInfo.update_info, hasks, rebuildSide_eq_ladderOf,
      densePrefix_natZip fs halen hanz]
  refine ⟨?_, ?_, ?_, ?_, ?_⟩
  · intro e he; rw [hb]; exact ladderOf_lookup_found es e hbnd he
  · intro e he; rw [ha]; exact ladderOf_lookup_found fs e hand he
  · intro p hp; rw [hb]; exact ladderOf_lookup_none es p hp
  · intro p hp; rw [ha]; exact ladderOf_lookup_none fs p hp
  · intro q2
    exact ⟨rfl, rfl⟩

/-- A dense update carrying the spec example's two bid levels. -/
def c2denseUpdate : QuoteUpdateData :=
  { bids := natZip [c2entryA, c2entryB], asks := natZip [] }

/-- Witness for `c2_update_rebuilds_ladders` at a two-level ladder
{100 ↦ A, 99 ↦ B}: 100 resolves to A's metadata, 101 is absent, and A is
gone after a follow-up update that omits it. -/
theorem c2_update_rebuilds_ladders_witness :
    dlookup (QuoteInfo.update_info c2emptyInfo c2denseUpdate).bid_info
      c2entryA.price = some c2entryA.toMeta ∧
    dlookup (QuoteInfo.update_info c2emptyInfo c2denseUpdate).bid_info
      (101 : ℚ) = none ∧
    dlookup (QuoteInfo.update_info
        (QuoteInfo.update_info c2emptyInfo c2denseUpdate)
        { bids := natZip [c2entryB], asks := natZip [] }).bid_info
      c2entryA.price = none := by
  have h := c2_update_rebuilds_ladders c2emptyInfo c2denseUpdate
    [c2entryA, c2entryB] [] rfl rfl (by decide) (by decide)
    (by decide) (by decide) (by decide) (by decide)
  have h2 := c2_update_rebuilds_ladders
    (QuoteInfo.update_info c2emptyInfo c2denseUpdate)
    { bids := natZip [c2entryB], asks := natZip [] }
    [c2entryB] [] rfl rfl (by decide) (by decide)
    (by decide) (by decide) (by decide) (by decide)
  refine ⟨?_, ?_, ?_⟩
  · exact h.1 c2entryA (by simp)
  · exact h.2.2.1 (101 : ℚ) (by decide)
  · exact h2.2.2.1 c2entryA.price (by decide)

/-- One side sub-record of a wire depth level (`cleanPriceBid`,
`orderQtyBid`, `mdEntryTimeBid`, `quoteEntryIdBid`, `partyInfoBid.partyID`
or the `Offer` equivalents); present iff the `cleanPrice…` key is in the
level dict. -/
structure WireQuoteSide where
  cleanPrice : ℚ
  orderQty : ℚ
  mdEntryTime : String
  quoteEntryId : String
  partyID : String
  deriving DecidableEq

/-- One entry of `qdmEspMarketDataLevelMap`.  An empty level dict is falsy
in the loop guard exactly like an absent key, so it is modelled as an
absent key. -/
structure WireDepthLevel where
  bid : Option WireQuoteSide
  ask : Option WireQuoteSide
  deriving DecidableEq

/-- Bilateral quote-tick wire payload: the fields read by
`convert_quote_tick`. -/
structure QuoteTickPayload where
  datetime : String
  gateway_name : String
  securityId : String
  symbol : String
  settlType : String
  qdmEspMarketDataLevelMap : List (Nat × WireDepthLevel)

/-- The flattened per-level field bundle written for one side. -/
def WireQuoteSide.toFlat (s : WireQuoteSide) : FlatEntry :=
  { price := s.cleanPrice, volume := s.orderQty, time := s.mdEntryTime
    quoteid := s.quoteEntryId, partyid := s.partyID }

/-- The `for i in range(1, 11)` flattening loop of `convert_quote_tick`
(source lines 712-735): walk the given level indices in order, stop at the
first absent level, and write the bid/ask field bundles of each visited
level. -/
def convertLevels (lm : List (Nat × WireDepthLevel)) :
    List Nat → LevelDict × LevelDict
  | [] => ([], [])
  | i :: rest =>
    match dlookup lm i with
    | none => ([], [])
    | some d =>
      let p := convertLevels lm rest
      ((match d.bid with
        | some s => (i, s.toFlat) :: p.1
        | none => p.1),
       (match d.ask with
        | some s => (i, s.toFlat) :: p.2
        | none => p.2))

/-- The flattened tick dict produced by `convert_quote_tick` (the
per-level `bid_*_i` / `ask_*_i` field families are the two level
dicts). -/
structure ConvertedTick where
  datetime : String
  gateway_name : String
  symbol : String
  name : String
  exchange : String
  settle_type : String
  bids : LevelDict
  asks : LevelDict

/-- Function `convert_quote_tick` (source lines 699-737). -/
def convert_quote_tick (data : QuoteTickPayload) : ConvertedTick :=
  { datetime := data.datetime
    gateway_name := data.gateway_name
    symbol := data.securityId
    name := data.symbol
    exchange := "Exchange.CFETS"
    settle_type := if data.settlType = "1" then "T0" else "T1"
    bids := (convertLevels data.qdmEspMarketDataLevelMap (List.range' 1 10)).1
    asks := (convertLevels data.qdmEspMarketDataLevelMap (List.range' 1 10)).2 }

theorem rebuildSide_gap (d : LevelDict) (j : Nat) (Q : List Nat)
    (hgap : dlookup d j = none ∨ ∃ e, dlookup d j = some e ∧ e.price = 0) :
    ∀ P : List Nat, rebuildSide d (P ++ j :: Q) = rebuildSide d P := by
  intro P
  induction P with
  | nil =>
    rcases hgap with h | ⟨e, he, hz⟩
    · simp [rebuildSide, h]
    · simp [rebuildSide, he, hz]
  | cons i P' ih =>
    simp only [List.cons_append, rebuildSide]
    cases dlookup d i with
    | none => rfl
    | some e =>
      by_cases hz : e.price = 0 <;> simp [hz, ih]

theorem convertLevels_gap (lm : List (Nat × WireDepthLevel)) (j : Nat)
    (hgap : dlookup lm j = none) (Q : List Nat) :
    ∀ P : List Nat, convertLevels lm (P ++ j :: Q) = convertLevels lm P := by
  intro P
  induction P with
  | nil => simp [convertLevels, hgap]
  | cons i P' ih =>
    simp only [List.cons_append, convertLevels]
    cases dlookup lm i with
    | none => rfl
    | some d => simp [ih]

theorem convertLevels_mem_bid (lm : List (Nat × WireDepthLevel))
    (L : List Nat) (i : Nat) (e : FlatEntry)
    (h : dlookup (convertLevels lm L).1 i = some e) : i ∈ L := by
  induction L with
  | nil => simp [convertLevels, dlookup] at h
  | cons i0 rest ih =>
    simp only [convertLevels] at h
    cases hl : dlookup lm i0 with
    | none => rw [hl] at h; simp [dlookup] at h
    | some d =>
      rw [hl] at h
      dsimp only at h
      cases hb : d.bid with
      | none =>
        rw [hb] at h
        exact List.mem_cons_of_mem i0 (ih h)
      | some s =>
        rw [hb] at h
        simp only [dlookup] at h
        by_cases hii : i0 = i
        · exact hii ▸ List.mem_cons_self i0 rest
        · rw [if_neg hii] at h
          exact List.mem_cons_of_mem i0 (ih h)

theorem convertLevels_mem_ask (lm : List (Nat × WireDepthLevel))
    (L : List Nat) (i : Nat) (e : FlatEntry)
    (h : dlookup (convertLevels lm L).2 i = some e) : i ∈ L := by
  induction L with
  | nil => simp [convertLevels, dlookup] at h
  | cons i0 rest ih =>
    simp only [convertLevels] at h
    cases hl : dlookup lm i0 with
    | none => rw [hl] at h; simp [dlookup] at h
    | some d =>
      rw [hl] at h
      dsimp only at h
      cases hb : d.ask with
      | none =>
        rw [hb] at h
        exact List.mem_cons_of_mem i0 (ih h)
      | some s =>
        rw [hb] at h
        simp only [dlookup] at h
        by_cases hii : i0 = i
        · exact hii ▸ List.mem_cons_self i0 rest
        · rw [if_neg hii] at h
          exact List.mem_cons_of_mem i0 (ih h)

/-- Bid entry of the C10 example stored at level slot 1. -/
def c10entryA : FlatEntry :=
  { price := 100, volume := 10000000, time := "11:00:00"
    quoteid := "QA1", partyid := "PA1" }

/-- Bid entry of the C10 example stored at level slot 3, behind the gap at
slot 2, sharing slot 1's price but with different metadata. -/
def c10entryC : FlatEntry :=
  { price := 100, volume := 30000000, time := "11:00:03"
    quoteid := "QC3", partyid := "PC3" }

/-- A flattened side with level slots 1 and 3 populated and slot 2 absent. -/
def c10dict : LevelDict := [(1, c10entryA), (3, c10entryC)]

/-- C10 (counterexample): level 3 sits after the gap at level 2, so its
metadata is dropped by the rebuild scan — but its price is still found by
a later lookup, because pre-gap level 1 carries the same price.  This
refutes the stated "its price is not found by a later lookup". -/
theorem c10_counterexample_price_found_via_pregap_level :
    dlookup c10dict 2 = none ∧
    dlookup c10dict 3 = some c10entryC ∧
    dlookup (rebuildSide c10dict levelIndices) c10entryC.price =
      some c10entryA.toMeta ∧
    c10entryA.toMeta ≠ c10entryC.toMeta := by decide

/-- C10 (amended): (1) the quote-cache rebuild scan processes levels in
order and contributes nothing from the position of an absent-or-zero-price
level onward; (2) hence, after a gap at level j ≤ 5, a price carried only
by levels after the gap (i.e. not carried by any pre-gap level) is not
found by a later lookup; (3) the `convert_quote_tick` flattening stops at
the first missing depth key: every deeper level is absent from the
flattened bid and ask field families. -/
theorem c10_scan_stops_at_first_gap :
    (∀ (d : LevelDict) (j : Nat) (P Q : List Nat),
       (dlookup d j = none ∨ ∃ e, dlookup d j = some e ∧ e.price = 0) →
       rebuildSide d (P ++ j :: Q) = rebuildSide d P) ∧
    (∀ (d : LevelDict) (j : Nat), 1 ≤ j → j ≤ 5 →
       (dlookup d j = none ∨ ∃ e, dlookup d j = some e ∧ e.price = 0) →
       ∀ p : ℚ,
         (∀ i e, 1 ≤ i → i < j → dlookup d i = some e → e.price ≠ p) →
         dlookup (rebuildSide d levelIndices) p = none) ∧
    (∀ (data : QuoteTickPayload) (j : Nat), 1 ≤ j → j ≤ 10 →
       dlookup data.qdmEspMarketDataLevelMap j = none →
       ∀ i, j < i →
         dlookup (convert_quote_tick data).bids i = none ∧
         dlookup (convert_quote_tick data).asks i = none) := by
  refine ⟨fun d j P Q hgap => rebuildSide_gap d j Q hgap P, ?_, ?_⟩
  · intro d j h1 h5 hgap p hp
    have hm : 1 + (j - 1) = j := by omega
    have hn : 6 - j + (j - 1) = 5 := by omega
    have happ := List.range'_append_1 1 (j - 1) (6 - j)
    rw [hm, hn] at happ
    have hsucc : List.range' j (6 - j) = j :: List.range' (j + 1) (5 - j) := by
      have h6 : 6 - j = (5 - j) + 1 := by omega
      rw [h6, List.range'_succ]
    have hlev : levelIndices =
        List.range' 1 (j - 1) ++ j :: List.range' (j + 1) (5 - j) := by
      have : levelIndices = List.range' 1 5 := by decide
      rw [this, ← happ, hsucc]
    rw [hlev, rebuildSide_gap d j _ hgap]
    cases hres : dlookup (rebuildSide d (List.range' 1 (j - 1))) p with
    | none => rfl
    | some m =>
      obtain ⟨i, hi, e, he, _, hpe, _⟩ :=
        rebuildSide_lookup_source d _ p m hres
      have hir := List.mem_range'_1.mp hi
      exact absurd hpe (hp i e hir.1 (by omega) he)
  · intro data j h1 h10 hgap i hi
    have hm : 1 + (j - 1) = j := by omega
    have hn : 11 - j + (j - 1) = 10 := by omega
    have happ := List.range'_append_1 1 (j - 1) (11 - j)
    rw [hm, hn] at happ
    have hsucc : List.range' j (11 - j) = j :: List.range' (j + 1) (10 - j) := by
      have h11 : 11 - j = (10 - j) + 1 := by omega
      rw [h11, List.range'_succ]
    have hten : List.range' 1 10 =
        List.range' 1 (j - 1) ++ j :: List.range' (j + 1) (10 - j) := by
      rw [← happ, hsucc]
    constructor
    · show dlookup
        (convertLevels data.qdmEspMarketDataLevelMap (List.range' 1 10)).1
        i = none
      rw [hten, convertLevels_gap data.qdmEspMarketDataLevelMap j hgap _]
      cases hres : dlookup
          (convertLevels data.qdmEspMarketDataLevelMap
            (List.range' 1 (j - 1))).1 i with
      | none => rfl
      | some e =>
        have := List.mem_range'_1.mp (convertLevels_mem_bid _ _ _ _ hres)
        omega
    · show dlookup
        (convertLevels data.qdmEspMarketDataLevelMap (List.range' 1 10)).2
        i = none
      rw [hten, convertLevels_gap data.qdmEspMarketDataLevelMap j hgap _]
      cases hres : dlookup
          (convertLevels data.qdmEspMarketDataLevelMap
            (List.range' 1 (j - 1))).2 i with
      | none => rfl
      | some e =>
        have := List.mem_range'_1.mp (convertLevels_mem_ask _ _ _ _ hres)
        omega

/-- A wire payload whose level map has depths 1 and 3 but not 2. -/
def c10payload : QuoteTickPayload :=
  { datetime := "20240102 11:00:00.000", gateway_name := "COMSTAR-QUOTE"
    securityId := "180406", symbol := "国开1804", settlType := "1"
    qdmEspMarketDataLevelMap :=
      [(1, { bid := some { cleanPrice := 100, orderQty := 10000000
                           mdEntryTime := "11:00:00", quoteEntryId := "QA1"
                           partyID := "PA1" }
             ask := none }),
       (3, { bid := some { cleanPrice := 99, orderQty := 30000000
                           mdEntryTime := "11:00:03", quoteEntryId := "QC3"
                           partyID := "PC3" }
             ask := none })] }

/-- Witness for `c10_scan_stops_at_first_gap` at the concrete gap inputs:
the rebuild scan over levels [1,2,3,4,5] of `c10dict` equals the scan over
[1] alone; a price carried by no pre-gap level is not found; and the
flattening of `c10payload` (gap at depth 2) drops depth 3. -/
theorem c10_scan_stops_at_first_gap_witness :
    rebuildSide c10dict ([1] ++ 2 :: [3, 4, 5]) = rebuildSide c10dict [1] ∧
    dlookup (rebuildSide c10dict levelIndices) (55 : ℚ) = none ∧
    dlookup (convert_quote_tick c10payload).bids 3 = none := by
  have h := c10_scan_stops_at_first_gap
  refine ⟨h.1 c10dict 2 [1] [3, 4, 5] (Or.inl (by decide)),
    h.2.1 c10dict 2 (by decide) (by decide) (Or.inl (by decide)) 55 ?_,
    (h.2.2 c10payload 2 (by decide) (by decide) (by decide) 3 (by decide)).1⟩
  intro i e h1 h2 hl
  have : i = 1 := by omega
  subst this
  have he : e = c10entryA := by
    have : dlookup c10dict 1 = some c10entryA := by decide
    rw [this] at hl
    exact (Option.some_injective _ hl).symm
  subst he
  decide

/-- Order lifecycle statuses (the vnpy `Status` members this layer
inspects; `submitting` is `Status.SUBMITTING`). -/
inductive OrderStatus where
  | submitting
  | notTraded
  | partTraded
  | allTraded
  | cancelled
  | rejected
  deriving DecidableEq

/-- Decoded inbound order push: the fields of `parse_order`'s result that
`UserApi.on_order` reads.  `volume`/`traded` are the raw venue
quantities. -/
structure OrderPush where
  orderid : String
  volume : ℚ
  traded : ℚ
  status : OrderStatus
  deriving DecidableEq

/-- The per-order state recorded in `UserApi.orders` (quantities already
divided by `SIZE`). -/
structure OrderRec where
  volume : ℚ
  traded : ℚ
  status : OrderStatus
  deriving DecidableEq

/-- Method `UserApi.on_order` (source lines 393-418): drop `SUBMITTING` pushes,
descale quantities, then suppress the push iff the last recorded push for
the same order id has identical traded volume and status; otherwise
record and emit it.  The second component is the order pushed to the
host (`none` = suppressed). -/
def on_order (orders : List (String × OrderRec)) (push : OrderPush) :
    List (String × OrderRec) × Option OrderRec :=
  if push.status = OrderStatus.submitting then (orders, none)
  else
    let o : OrderRec :=
      { volume := push.volume / SIZE
        traded := push.traded / SIZE
        status := push.status }
    match dlookup orders push.orderid with
    | some last =>
      if o.traded = last.traded ∧ o.status = last.status then (orders, none)
      else ((push.orderid, o) :: orders, some o)
    | none => ((push.orderid, o) :: orders, some o)

/-- First push of the C4 example: order O1 not traded. -/
def c4push1 : OrderPush := { orderid := "O1", volume := 0, traded := 0, status := OrderStatus.notTraded }

/-- Second push of the C4 example: same order id, same traded volume, but
status `SUBMITTING` — different from the recorded status. -/
def c4push2 : OrderPush := { orderid := "O1", volume := 0, traded := 0, status := OrderStatus.submitting }

/-- C4 (counterexample): after O1 is recorded with status notTraded, a
second push for O1 with the differing status SUBMITTING is suppressed
(the boundary filter drops it before the dedup comparison), refuting "if
either differs, the second push is emitted". -/
theorem c4_counterexample_submitting_suppressed :
    dlookup (on_order [] c4push1).1 "O1" =
      some { volume := 0, traded := 0, status := OrderStatus.notTraded } ∧
    c4push2.status ≠ OrderStatus.notTraded ∧
    (on_order (on_order [] c4push1).1 c4push2).2 = none := by
  refine ⟨?_, by decide, ?_⟩ <;>
    norm_num [on_order, dlookup, c4push1, c4push2, SIZE]

/-- C4 (amended): a push with `SUBMITTING` status is always suppressed and
leaves the dedup state unchanged; a non-`SUBMITTING` push whose order id
has a recorded last push is suppressed (state unchanged) iff both its
descaled traded volume and its status equal that record, and otherwise is
emitted and becomes the new record. -/
theorem c4_order_push_dedup (orders : List (String × OrderRec))
    (push : OrderPush) (last : OrderRec)
    (hlast : dlookup orders push.orderid = some last) :
    (push.status = OrderStatus.submitting → on_order orders push = (orders, none)) ∧
    (push.status ≠ OrderStatus.submitting →
      ((push.traded / SIZE = last.traded ∧ push.status = last.status) →
         on_order orders push = (orders, none)) ∧
      (¬(push.traded / SIZE = last.traded ∧ push.status = last.status) →
         (on_order orders push).2 =
           some { volume := push.volume / SIZE
                  traded := push.traded / SIZE
                  status := push.status } ∧
         dlookup (on_order orders push).1 push.orderid =
           some { volume := push.volume / SIZE
                  traded := push.traded / SIZE
                  status := push.status })) := by
  constructor
  · intro hs
    simp [on_order, hs]
  · intro hs
    constructor
    · intro hsame
      simp [on_order, hs, hlast, hsame.1, hsame.2]
    · intro hdiff
      have : ¬(push.traded / SIZE = last.traded ∧
          push.status = last.status) := hdiff
      constructor
      · simp only [on_order, if_neg hs, hlast]
        rw [if_neg this]
      · simp only [on_order, if_neg hs, hlast]
        rw [if_neg this]
        simp [dlookup]

/-- Witness for `c4_order_push_dedup`: with O1 recorded as
(traded 0, notTraded), an identical repeat push is suppressed, and a push
with traded volume 10000000 (descaled: 1) is emitted and re-recorded. -/
theorem c4_order_push_dedup_witness :
    on_order [("O1", { volume := 0, traded := 0, status := OrderStatus.notTraded })]
        { orderid := "O1", volume := 0, traded := 0, status := OrderStatus.notTraded } =
      ([("O1", { volume := 0, traded := 0, status := OrderStatus.notTraded })], none) ∧
    (on_order [("O1", { volume := 0, traded := 0, status := OrderStatus.notTraded })]
        { orderid := "O1", volume := 0, traded := 10000000, status := OrderStatus.notTraded }).2 =
      some { volume := 0, traded := 1, status := OrderStatus.notTraded } := by
  have h1 := c4_order_push_dedup
    [("O1", { volume := 0, traded := 0, status := OrderStatus.notTraded })]
    { orderid := "O1", volume := 0, traded := 0, status := OrderStatus.notTraded }
    { volume := 0, traded := 0, status := OrderStatus.notTraded } (by decide)
  have h2 := c4_order_push_dedup
    [("O1", { volume := 0, traded := 0, status := OrderStatus.notTraded })]
    { orderid := "O1", volume := 0, traded := 10000000, status := OrderStatus.notTraded }
    { volume := 0, traded := 0, status := OrderStatus.notTraded } (by decide)
  constructor
  · exact (h1.2 (by decide)).1 (by norm_num [SIZE])
  · have := (h2.2 (by decide)).2 (by norm_num [SIZE])
    have heq : ((10000000 : ℚ) / SIZE) = 1 := by norm_num [SIZE]
    have hz : ((0 : ℚ) / SIZE) = 0 := by norm_num [SIZE]
    rw [heq, hz] at this
    exact this.1

/-- Decoded inbound trade push: the fields of `parse_trade`'s result that
`UserApi.on_trade` reads.  Within one adapter instance all pushes carry
the same gateway name, so the key `vt_tradeid = gateway_name + "." +
tradeid` distinguishes pushes exactly as `tradeid` does. -/
structure TradePush where
  tradeid : String
  volume : ℚ
  deriving DecidableEq

/-- Method `UserApi.on_trade` (source lines 420-435): descale the volume, then
suppress the push iff its trade id was already recorded; otherwise record
and emit it. -/
def on_trade (trades : List (String × TradePush)) (push : TradePush) :
    List (String × TradePush) × Option TradePush :=
  let t : TradePush := { push with volume := push.volume / SIZE }
  match dlookup trades push.tradeid with
  | some _ => (trades, none)
  | none => ((push.tradeid, t) :: trades, some t)

/-- Feed a sequence of trade pushes through `on_trade`, collecting the
emitted trades in order. -/
def processTrades (trades : List (String × TradePush)) :
    List TradePush → List (String × TradePush) × List TradePush
  | [] => (trades, [])
  | p :: ps =>
    match on_trade trades p with
    | (trades2, none) => processTrades trades2 ps
    | (trades2, some t) =>
      let rest := processTrades trades2 ps
      (rest.1, t :: rest.2)

/-- Specification-side view: the sublist of first occurrences of each id
not yet seen. -/
def firstOccurrences (seen : List String) : List String → List String
  | [] => []
  | t :: ts =>
    if t ∈ seen then firstOccurrences seen ts
    else t :: firstOccurrences (t :: seen) ts

theorem dlookup_eq_none_iff {κ α : Type} [DecidableEq κ]
    (l : List (κ × α)) (k : κ) :
    dlookup l k = none ↔ k ∉ l.map Prod.fst := by
  induction l with
  | nil => simp [dlookup]
  | cons kv rest ih =>
    obtain ⟨k1, v1⟩ := kv
    by_cases h : k1 = k
    · subst h; simp [dlookup]
    · simp only [dlookup, if_neg h, ih, List.map_cons, List.mem_cons]
      constructor
      · intro hn hor
        rcases hor with he | hm
        · exact h he.symm
        · exact hn hm
      · intro hn hm
        exact hn (Or.inr hm)

theorem processTrades_emits_firstOccurrences
    (ps : List TradePush) (trades : List (String × TradePush)) :
    (processTrades trades ps).2.map TradePush.tradeid =
      firstOccurrences (trades.map Prod.fst)
        (ps.map TradePush.tradeid) := by
  induction ps generalizing trades with
  | nil => simp [processTrades, firstOccurrences]
  | cons p ps ih =>
    by_cases hmem : p.tradeid ∈ trades.map Prod.fst
    · have hl : dlookup trades p.tradeid ≠ none := fun hnone =>
        ((dlookup_eq_none_iff trades p.tradeid).mp hnone) hmem
      cases hcase : dlookup trades p.tradeid with
      | none => exact absurd hcase hl
      | some t0 =>
        have hstep : on_trade trades p = (trades, none) := by
          simp [on_trade, hcase]
        simp only [processTrades, hstep]
        simp [List.map_cons, firstOccurrences, hmem, ih]
    · have hl : dlookup trades p.tradeid = none := by
        rw [dlookup_eq_none_iff]; exact hmem
      have hstep : on_trade trades p =
          ((p.tradeid, { p with volume := p.volume / SIZE }) :: trades,
           some { p with volume := p.volume / SIZE }) := by
        simp [on_trade, hl]
      simp only [processTrades, hstep]
      simp [List.map_cons, firstOccurrences, hmem, ih]

theorem firstOccurrences_count (tid : String) :
    ∀ (ts seen : List String),
      (firstOccurrences seen ts).count tid =
        if tid ∈ seen then 0 else if tid ∈ ts then 1 else 0 := by
  intro ts
  induction ts with
  | nil => intro seen; simp [firstOccurrences]
  | cons t ts ih =>
    intro seen
    by_cases hts : t ∈ seen
    · rw [firstOccurrences, if_pos hts, ih seen]
      by_cases h1 : tid ∈ seen
      · simp [h1]
      · have hne : tid ≠ t := fun he => h1 (he ▸ hts)
        simp [h1, List.mem_cons, hne]
    · rw [firstOccurrences, if_neg hts]
      by_cases he : t = tid
      · subst he
        rw [List.count_cons_self, ih (t :: seen)]
        simp [hts, List.mem_cons]
      · have hne : tid ≠ t := fun hx => he hx.symm
        rw [List.count_cons_of_ne hne, ih (t :: seen)]
        by_cases h1 : tid ∈ seen
        · simp [h1, List.mem_cons, hne]
        · have h2 : ¬tid ∈ t :: seen := by simp [List.mem_cons, h1, hne]
          simp [h1, h2, List.mem_cons, hne]

/-- C5: for every sequence of inbound trade pushes processed by one
adapter instance from a fresh state, the emitted trade ids are exactly the
first occurrences of each distinct trade id, and each trade id is emitted
exactly once if it occurs in the sequence at all (so repeats are
suppressed and nothing is emitted twice). -/
theorem c5_trade_id_emitted_at_most_once
    (ps : List TradePush) (tid : String) :
    (processTrades [] ps).2.map TradePush.tradeid =
      firstOccurrences [] (ps.map TradePush.tradeid) ∧
    ((processTrades [] ps).2.map TradePush.tradeid).count tid =
      (if tid ∈ ps.map TradePush.tradeid then 1 else 0) := by
  constructor
  · exact processTrades_emits_firstOccurrences ps []
  · rw [processTrades_emits_firstOccurrences ps []]
    have h := firstOccurrences_count tid (ps.map TradePush.tradeid) []
    simpa using h

/-- Order side (`Direction.LONG` / `Direction.SHORT`). -/
inductive Direction where
  | long
  | short
  deriving DecidableEq

/-- Order types this layer distinguishes. -/
inductive OrderType where
  | limit
  | fak
  | market
  deriving DecidableEq

/-- Host order request (`OrderRequest` fields read by
`send_cfets_order`). -/
structure OrderReq where
  symbol : String
  exchange : String
  vt_symbol : String
  direction : Direction
  type : OrderType
  price : ℚ
  volume : ℚ
  reference : String
  deriving DecidableEq

/-- Payload handed to the vendor `maker_send_order` call. -/
structure MakerOrderPayload where
  symbol : String
  exchange : String
  settle_type : String
  direction : Direction
  type : OrderType
  price : ℚ
  volume : ℤ
  strategy_name : String
  quoteId : String
  partyID : String
  transactTime : String
  vt_symbol : String
  deriving DecidableEq

/-- The "submitting" snapshot emitted through `on_order` after a
successful submission (`req.create_order_data` yields status
`SUBMITTING`). -/
structure SubmitSnapshot where
  orderid : String
  status : OrderStatus
  deriving DecidableEq

/-- Observable outcome of `send_cfets_order`: the returned string
(`none` models an uncaught Python exception), the user-facing logs, the
vendor maker-send-order calls, and the emitted submitting snapshots. -/
structure SendOutcome where
  ret : Option String
  logs : List LogMsg
  calls : List MakerOrderPayload
  emitted : List SubmitSnapshot
  deriving DecidableEq

/-- Python `int(...)` on a float/rational: truncation toward zero. -/
def pyInt (q : ℚ) : ℤ := if 0 ≤ q then ⌊q⌋ else ⌈q⌉

/-- Method `ComstarGateway.send_cfets_order` (source lines 147-200): only FAK
orders pass; the symbol must validate; the instrument must have a cached
`QuoteInfo` whose relevant ladder (ask for a buy, bid for a sell) holds
the requested price; the scaled volume is forced to an integer with
`int(...)`; then the vendor call is issued, a submitting snapshot
emitted, and `gateway_name.order_id` returned. -/
def send_cfets_order (gateway_name : String)
    (quote_infos : List (String × QuoteInfo)) (req : OrderReq)
    (vendor_order_id : String) : SendOutcome :=
  if req.type ≠ OrderType.fak then
    { ret := some "", logs := [LogMsg.onlyFak], calls := [], emitted := [] }
  else
    match split_symbol req.symbol with
    | SplitResult.error => { ret := none, logs := [], calls := [], emitted := [] }
    | SplitResult.invalid log =>
      { ret := some "", logs := [log], calls := [], emitted := [] }
    | SplitResult.ok symbol settle_type =>
      match dlookup quote_infos req.vt_symbol with
      | none =>
        { ret := some "", logs := [LogMsg.quoteInfoNotFound req.vt_symbol]
          calls := [], emitted := [] }
      | some quote_info =>
        match (if req.direction = Direction.long
               then dlookup quote_info.ask_info req.price
               else dlookup quote_info.bid_info req.price) with
        | none =>
          { ret := some ""
            logs := [LogMsg.priceInfoNotFound req.vt_symbol req.price]
            calls := [], emitted := [] }
        | some info =>
          { ret := some (gateway_name ++ "." ++ vendor_order_id)
            logs := []
            calls := [{ symbol := symbol, exchange := req.exchange
                        settle_type := settle_type
                        direction := req.direction, type := req.type
                        price := req.price
                        volume := pyInt (req.volume * SIZE)
                        strategy_name := req.reference
                        quoteId := info.quoteid, partyID := info.partyid
                        transactTime := info.time
                        vt_symbol := req.vt_symbol }]
            emitted := [{ orderid := vendor_order_id
                          status := OrderStatus.submitting }] }

/-- A valid maker order request for instrument vt_symbol "180406_T0.CFETS". -/
def c3req : OrderReq :=
  { symbol := "180406_T0", exchange := "Exchange.CFETS"
    vt_symbol := "180406_T0.CFETS", direction := Direction.long
    type := OrderType.fak, price := 100, volume := 1, reference := "s1" }

/-- C3 (counterexample): with an empty quote-info cache (so in particular
no entry at the requested price on the ask side), the submission is
rejected with empty id, no vendor call and no snapshot — but the only log
written is `quoteInfoNotFound`, which carries the instrument and not the
price.  The only price-referencing message, `priceInfoNotFound`, is not
among the logs, refuting "a user-facing log message referencing the
missing price is written". -/
theorem c3_counterexample_missing_instrument_log_lacks_price :
    send_cfets_order "COMSTAR" [] c3req "ORD1" =
      { ret := some "", logs := [LogMsg.quoteInfoNotFound "180406_T0.CFETS"]
        calls := [], emitted := [] } ∧
    LogMsg.priceInfoNotFound "180406_T0.CFETS" (100 : ℚ) ∉
      (send_cfets_order "COMSTAR" [] c3req "ORD1").logs := by decide

/-- C3 (amended): for a maker order whose symbol validates and whose type
is FAK: if a quote-info record exists for the instrument but its relevant
ladder has no level at exactly the requested price, the submission is
rejected with a log carrying the missing price, the empty identifier, no
vendor call and no snapshot; if no quote-info record exists for the
instrument at all, the submission is rejected the same way except that the
log carries the instrument instead of the price. -/
theorem c3_missing_quote_level_rejected (gw : String)
    (qis : List (String × QuoteInfo)) (req : OrderReq) (vid : String)
    (sym st : String)
    (hsym : split_symbol req.symbol = SplitResult.ok sym st)
    (htype : req.type = OrderType.fak) :
    (∀ qi, dlookup qis req.vt_symbol = some qi →
       (if req.direction = Direction.long
        then dlookup qi.ask_info req.price
        else dlookup qi.bid_info req.price) = none →
       send_cfets_order gw qis req vid =
         { ret := some ""
           logs := [LogMsg.priceInfoNotFound req.vt_symbol req.price]
           calls := [], emitted := [] }) ∧
    (dlookup qis req.vt_symbol = none →
       send_cfets_order gw qis req vid =
         { ret := some "", logs := [LogMsg.quoteInfoNotFound req.vt_symbol]
           calls := [], emitted := [] }) := by
  constructor
  · intro qi hqi hmiss
    simp [send_cfets_order, htype, hsym, hqi, hmiss]
  · intro hnone
    simp [send_cfets_order, htype, hsym, hnone]

/-- A cached quote info for instrument "X" quoting only ask price 100. -/
def c3winfo : QuoteInfo :=
  { vt_symbol := "X", bid_info := []
    ask_info := [(100, { time := "t3", quoteid := "q3", partyid := "p3" })] }

/-- A FAK buy at price 101 for instrument "X" (a price not quoted). -/
def c3wreq : OrderReq :=
  { symbol := "A_T0", exchange := "Exchange.CFETS", vt_symbol := "X"
    direction := Direction.long, type := OrderType.fak, price := 101
    volume := 1, reference := "w" }

/-- Witness for `c3_missing_quote_level_rejected`: a buy at unquoted price
101 is rejected with the price-carrying log, and the same request against
an empty cache is rejected with the instrument-carrying log. -/
theorem c3_missing_quote_level_rejected_witness :
    send_cfets_order "COMSTAR" [("X", c3winfo)] c3wreq "OID" =
      { ret := some "", logs := [LogMsg.priceInfoNotFound "X" 101]
        calls := [], emitted := [] } ∧
    send_cfets_order "COMSTAR" [] c3wreq "OID" =
      { ret := some "", logs := [LogMsg.quoteInfoNotFound "X"]
        calls := [], emitted := [] } := by
  have h1 := c3_missing_quote_level_rejected "COMSTAR" [("X", c3winfo)]
    c3wreq "OID" "A" "T0" (by decide) (by decide)
  have h2 := c3_missing_quote_level_rejected "COMSTAR" [] c3wreq "OID"
    "A" "T0" (by decide) (by decide)
  exact ⟨h1.1 c3winfo (by decide) (by decide), h2.2 (by decide)⟩

/-- Metadata of the quote level backing the C7 example. -/
def c7meta : QuoteMeta := { time := "t7", quoteid := "q7", partyid := "p7" }

/-- Quote info for instrument "Y" quoting ask price 100. -/
def c7info : QuoteInfo :=
  { vt_symbol := "Y", bid_info := [], ask_info := [(100, c7meta)] }

/-- A FAK buy whose volume scales to the non-integer lot quantity 1/2. -/
def c7req : OrderReq :=
  { symbol := "180406_T1", exchange := "Exchange.CFETS", vt_symbol := "Y"
    direction := Direction.long, type := OrderType.fak, price := 100
    volume := 1 / 20000000, reference := "s7" }

/-- C7 (counterexample): the request's scaled lot quantity is the
non-integer 1/2, yet the submission is not rejected: `int(...)` silently
truncates it to 0, the vendor call is issued with volume 0, a submitting
snapshot is emitted and a non-empty identifier is returned — refuting
"no vendor call is issued" and "the fractional quantity is never silently
altered and submitted". -/
theorem c7_counterexample_fractional_volume_truncated_and_submitted :
    c7req.volume * SIZE = 1 / 2 ∧
    pyInt (c7req.volume * SIZE) = 0 ∧
    send_cfets_order "COMSTAR" [("Y", c7info)] c7req "ORD7" =
      { ret := some "COMSTAR.ORD7", logs := []
        calls := [{ symbol := "180406", exchange := "Exchange.CFETS"
                    settle_type := "T1", direction := Direction.long
                    type := OrderType.fak, price := 100
                    volume := pyInt (c7req.volume * SIZE)
                    strategy_name := "s7", quoteId := "q7", partyID := "p7"
                    transactTime := "t7", vt_symbol := "Y" }]
        emitted := [{ orderid := "ORD7"
                      status := OrderStatus.submitting }] } := by
  have hvol : c7req.volume * SIZE = 1 / 2 := by norm_num [c7req, SIZE]
  refine ⟨hvol, ?_, rfl⟩
  rw [hvol, pyInt, if_pos (by norm_num)]
  rw [Int.floor_eq_zero_iff]
  constructor <;> norm_num

/-- C7 (amended): a bilateral order whose scaled lot quantity is not an
integer is not treated as a validation error: for every FAK request with a
valid symbol that resolves against a cached quote level, the vendor call
is issued with the scaled volume truncated toward zero by `int(...)`
(fractional or not), a submitting snapshot is emitted and a non-empty
composite identifier is returned. -/
theorem c7_fractional_volume_truncated (gw : String)
    (qis : List (String × QuoteInfo)) (req : OrderReq) (vid : String)
    (sym st : String) (qi : QuoteInfo) (info : QuoteMeta)
    (hsym : split_symbol req.symbol = SplitResult.ok sym st)
    (htype : req.type = OrderType.fak)
    (hqi : dlookup qis req.vt_symbol = some qi)
    (hfound : (if req.direction = Direction.long
               then dlookup qi.ask_info req.price
               else dlookup qi.bid_info req.price) = some info) :
    send_cfets_order gw qis req vid =
      { ret := some (gw ++ "." ++ vid), logs := []
        calls := [{ symbol := sym, exchange := req.exchange
                    settle_type := st, direction := req.direction
                    type := req.type, price := req.price
                    volume := pyInt (req.volume * SIZE)
                    strategy_name := req.reference
                    quoteId := info.quoteid, partyID := info.partyid
                    transactTime := info.time
                    vt_symbol := req.vt_symbol }]
        emitted := [{ orderid := vid
                      status := OrderStatus.submitting }] } := by
  simp [send_cfets_order, htype, hsym, hqi, hfound]

/-- Witness for `c7_fractional_volume_truncated` at the fractional request
`c7req` (scaled quantity 1/2): the vendor call is issued with the
truncated volume. -/
theorem c7_fractional_volume_truncated_witness :
    send_cfets_order "COMSTAR" [("Y", c7info)] c7req "ORD8" =
      { ret := some "COMSTAR.ORD8", logs := []
        calls := [{ symbol := "180406", exchange := "Exchange.CFETS"
                    settle_type := "T1", direction := Direction.long
                    type := OrderType.fak, price := 100
                    volume := pyInt (c7req.volume * SIZE)
                    strategy_name := "s7", quoteId := "q7", partyID := "p7"
                    transactTime := "t7", vt_symbol := "Y" }]
        emitted := [{ orderid := "ORD8"
                      status := OrderStatus.submitting }] } := by
  exact c7_fractional_volume_truncated "COMSTAR" [("Y", c7info)] c7req
    "ORD8" "180406" "T1" c7info c7meta (by decide) (by decide) (by decide)
    (by decide)

/-- Round-half-to-even on a rational (Python 3 `round` / `Decimal`
ROUND_HALF_EVEN, as used by vnpy `round_to`). -/
def round_half_even (q : ℚ) : ℤ :=
  if q - ⌊q⌋ < 1 / 2 then ⌊q⌋
  else if 1 / 2 < q - ⌊q⌋ then ⌊q⌋ + 1
  else if 2 ∣ ⌊q⌋ then ⌊q⌋ else ⌊q⌋ + 1

/-- vnpy `round_to(value, target)`: round `value` to the nearest multiple
of `target` (halves to even).  The `Decimal(str(...))` conversions of the
original are exact in the rational model. -/
def round_to (value target : ℚ) : ℚ :=
  ((round_half_even (value / target) : ℤ) : ℚ) * target

/-- The contract payload fields read by `parse_contract`. -/
structure ContractPayload where
  symbol : String
  name : String
  size : ℤ
  pricetick : ℚ
  min_volume : ℚ
  gateway_name : String

/-- Canonical contract entity (fields set by `parse_contract`). -/
structure ContractData where
  symbol : String
  name : String
  size : ℤ
  pricetick : ℚ
  min_volume : ℚ
  gateway_name : String
  deriving DecidableEq

/-- Function `parse_contract` (source lines 643-655). -/
def parse_contract (data : ContractPayload) (settle_type : String) :
    ContractData :=
  { symbol := data.symbol ++ "_" ++ settle_type
    name := data.name
    size := data.size
    pricetick := data.pricetick
    min_volume := data.min_volume
    gateway_name := data.gateway_name }

/-- The last-price synthesis of `UserApi.on_tick` for bilateral quote
ticks (source lines 348-351): when both canonical best prices are truthy
(nonzero), the last price becomes the bid/ask midpoint rounded with the
hard-coded granularity `0.0001`. -/
def quote_tick_with_last (tick : TickData) : TickData :=
  if tick.ask_price_1 ≠ 0 ∧ tick.bid_price_1 ≠ 0 then
    { tick with last_price :=
        round_to ((tick.ask_price_1 + tick.bid_price_1) / 2) (1 / 10000) }
  else tick

theorem round_half_even_close (q : ℚ) :
    |((round_half_even q : ℤ) : ℚ) - q| ≤ 1 / 2 := by
  have hfl : ((⌊q⌋ : ℤ) : ℚ) ≤ q := Int.floor_le q
  have hlt : q < ⌊q⌋ + 1 := Int.lt_floor_add_one q
  unfold round_half_even
  split_ifs with h1 h2 h3
  · rw [abs_sub_comm, abs_of_nonneg (by linarith)]
    linarith
  · push_cast
    rw [abs_of_nonneg (by linarith)]
    linarith
  · rw [abs_sub_comm, abs_of_nonneg (by linarith)]
    linarith
  · push_cast
    rw [abs_of_nonneg (by linarith)]
    linarith

/-- Contract payload whose price tick is 0.01 (not the hard-coded
0.0001). -/
def c8contract : ContractPayload :=
  { symbol := "180406", name := "n", size := 1, pricetick := 1 / 100
    min_volume := 10000000, gateway_name := "g" }

/-- Normalized quote tick with best bid 99.455 / best ask 99.457. -/
def c8tick : TickData :=
  { symbol := "180406_T0", bid_price_1 := 99455 / 1000
    ask_price_1 := 99457 / 1000 }

/-- C8 (counterexample): the instrument's contract price tick is 0.01,
the midpoint is 99.456, and the adapter sets last price 99.456 (midpoint
rounded to the hard-coded 0.0001), which differs from 99.46 (the midpoint
rounded to the contract's price tick).  This refutes "rounded to the
instrument's price tick granularity". -/
theorem c8_counterexample_fixed_granularity_not_contract_tick :
    (parse_contract c8contract "T0").symbol = c8tick.symbol ∧
    (parse_contract c8contract "T0").pricetick = 1 / 100 ∧
    (quote_tick_with_last c8tick).last_price = 99456 / 1000 ∧
    round_to ((c8tick.ask_price_1 + c8tick.bid_price_1) / 2)
      ((parse_contract c8contract "T0").pricetick) = 9946 / 100 ∧
    (99456 / 1000 : ℚ) ≠ 9946 / 100 := by
  refine ⟨rfl, rfl, ?_, ?_, by norm_num⟩
  · rw [quote_tick_with_last,
      if_pos (⟨by norm_num [c8tick], by norm_num [c8tick]⟩ :
        c8tick.ask_price_1 ≠ 0 ∧ c8tick.bid_price_1 ≠ 0)]
    norm_num [c8tick, round_to, round_half_even]
  · norm_num [c8tick, parse_contract, c8contract, round_to, round_half_even]

/-- C8 (amended): for every normalized bilateral quote tick with nonzero
best bid and ask, the synthesized last price is the midpoint rounded
half-to-even to the fixed granularity 0.0001 (not the contract's price
tick): it is an integer multiple of 0.0001 and within 0.00005 of the true
midpoint. -/
theorem c8_last_price_midpoint_fixed_tick (tick : TickData)
    (ha : tick.ask_price_1 ≠ 0) (hb : tick.bid_price_1 ≠ 0) :
    (quote_tick_with_last tick).last_price =
      round_to ((tick.ask_price_1 + tick.bid_price_1) / 2) (1 / 10000) ∧
    (∃ n : ℤ, (quote_tick_with_last tick).last_price = (n : ℚ) * (1 / 10000)) ∧
    |(quote_tick_with_last tick).last_price -
       (tick.ask_price_1 + tick.bid_price_1) / 2| ≤ 1 / 20000 := by
  have heq : (quote_tick_with_last tick).last_price =
      round_to ((tick.ask_price_1 + tick.bid_price_1) / 2) (1 / 10000) := by
    rw [quote_tick_with_last, if_pos ⟨ha, hb⟩]
  refine ⟨heq,
    ⟨round_half_even (((tick.ask_price_1 + tick.bid_price_1) / 2) / (1 / 10000)),
      by rw [heq]; rfl⟩, ?_⟩
  rw [heq, round_to]
  set m := (tick.ask_price_1 + tick.bid_price_1) / 2 with hm
  have hc := round_half_even_close (m / (1 / 10000))
  have ht : (1 / 10000 : ℚ) ≠ 0 := by norm_num
  have hdist :
      ((round_half_even (m / (1 / 10000)) : ℤ) : ℚ) * (1 / 10000) - m =
        (((round_half_even (m / (1 / 10000)) : ℤ) : ℚ) - m / (1 / 10000)) *
          (1 / 10000) := by
    rw [sub_mul, div_mul_cancel₀ _ ht]
  rw [hdist, abs_mul]
  have habs : |(1 : ℚ) / 10000| = 1 / 10000 := by norm_num
  rw [habs]
  linarith

/-- Witness for `c8_last_price_midpoint_fixed_tick` at best bid = best
ask = 1: the synthesized last price is exactly 1. -/
theorem c8_last_price_midpoint_fixed_tick_witness :
    (quote_tick_with_last
      { symbol := "W", bid_price_1 := 1, ask_price_1 := 1 }).last_price = 1 := by
  have h := c8_last_price_midpoint_fixed_tick
    { symbol := "W", bid_price_1 := 1, ask_price_1 := 1 }
    (by decide) (by decide)
  rw [h.1]
  norm_num [round_to, round_half_even]

/-- A bilateral quote-tick payload whose `settlType` is "9" — neither of
the recognized wire tokens ("1" = T0, "2" = T1). -/
def c9payload : QuoteTickPayload :=
  { datetime := "20240102 09:30:00.000", gateway_name := "COMSTAR-QUOTE"
    securityId := "S180406", symbol := "N180406", settlType := "9"
    qdmEspMarketDataLevelMap := [] }

/-- C9 (counterexample): `convert_quote_tick` decodes the unrecognized
settlement-type "9" to the default settlement speed "T1" and produces a
normal flattened tick — the input is not rejected, refuting "absence or
any other value is a rejected input, not a default". -/
theorem c9_counterexample_unrecognized_settltype_defaults_to_t1 :
    c9payload.settlType ≠ "1" ∧
    c9payload.settlType ≠ "2" ∧
    (convert_quote_tick c9payload).settle_type = "T1" ∧
    (convert_quote_tick c9payload).symbol = "S180406" := by
  exact ⟨by decide, by decide, rfl, rfl⟩

/-- C9 (amended): the compound-symbol codec does reject settlement tokens
other than T0/T1 (a successful decode only ever yields T0 or T1), but the
bilateral quote-tick decoder never rejects the settlement-type field: it
maps the wire value "1" to T0 and every other value silently to the
default T1. -/
theorem c9_settlement_speed_interpretation (sym a st : String)
    (data : QuoteTickPayload) :
    (split_symbol sym = SplitResult.ok a st → st = "T0" ∨ st = "T1") ∧
    ((convert_quote_tick data).settle_type =
      if data.settlType = "1" then "T0" else "T1") := by
  constructor
  · intro h
    unfold split_symbol at h
    by_cases hc : '_' ∈ sym.data
    · rw [if_pos hc] at h
      cases hps : pySplit sym '_' with
      | nil => rw [hps] at h; exact SplitResult.noConfusion h
      | cons x xs =>
        cases xs with
        | nil => rw [hps] at h; exact SplitResult.noConfusion h
        | cons y ys =>
          cases ys with
          | nil =>
            rw [hps] at h
            dsimp only at h
            by_cases hv : y = "T0" ∨ y = "T1"
            · rw [if_pos hv] at h
              cases h
              exact hv
            · rw [if_neg hv] at h
              exact SplitResult.noConfusion h
          | cons z zs => rw [hps] at h; exact SplitResult.noConfusion h
    · rw [if_neg hc] at h
      exact SplitResult.noConfusion h
  · rfl

/-- Witness for `c9_settlement_speed_interpretation`: the valid symbol
"180406_T0" decodes to a recognized token, and the payload with
settlType "9" flattens with the default settlement speed "T1". -/
theorem c9_settlement_speed_interpretation_witness :
    (("T0" : String) = "T0" ∨ ("T0" : String) = "T1") ∧
    (convert_quote_tick c9payload).settle_type = "T1" := by
  have h := c9_settlement_speed_interpretation "180406_T0" "180406" "T0"
    c9payload
  refine ⟨h.1 (by decide), ?_⟩
  rw [h.2]
  decide
